import Mathlib

/-!
Verification of the SimpleBlog repository (a FastAPI helpdesk / articles
application) against its natural-language specification.

The development shallowly embeds the two source files:

* `src/model/artigo_model.py` — the `StatusArtigo` enumeration and the
  `Artigo` dataclass, embedded as a Lean inductive type and structure with
  the same fields, types and defaults.
* `src/main.py` — the `create_app` bootstrap function, embedded as a pure
  function producing both the configured application value and the trace of
  configuration events it performs, in the order the Python code performs
  them.  Failure of the database-preparation block is modelled by a
  parameter saying which database step raises; existence of the `static`
  directory is a boolean parameter.
-/

namespace SimpleBlog

/-! ## Model layer: `src/model/artigo_model.py` -/

/-- Stand-in for Python's `datetime.datetime`: an abstract timestamp value.
The application never computes on timestamps, so a single opaque field
suffices. -/
structure Datetime where
  ticks : Int
deriving DecidableEq, Repr

/-- `class StatusArtigo(Enum)` — the four-member article status enumeration
(`RASCUNHO = "Rascunho"`, `FINALIZADO = "Finalizado"`,
`PUBLICADO = "Publicado"`, `PAUSADO = "Pausado"`). -/
inductive StatusArtigo where
  | RASCUNHO
  | FINALIZADO
  | PUBLICADO
  | PAUSADO
deriving DecidableEq, Repr

/-- The string value carried by each `StatusArtigo` enum member. -/
def StatusArtigo.value : StatusArtigo → String
  | .RASCUNHO => "Rascunho"
  | .FINALIZADO => "Finalizado"
  | .PUBLICADO => "Publicado"
  | .PAUSADO => "Pausado"

/-- All members of the `StatusArtigo` enumeration, in declaration order. -/
def StatusArtigo.members : List StatusArtigo :=
  [.RASCUNHO, .FINALIZADO, .PUBLICADO, .PAUSADO]

/-- `@dataclass class Artigo` — mirrors the dataclass field for field.
Note that the `status` field is annotated `str` in the source, not
`StatusArtigo`; fields with Python default values carry the same defaults
here (`Optional[X] = None` becomes `Option X := none`,
`Optional[int] = 0` becomes `Option Int := some 0`). -/
structure Artigo where
  id : Int
  titulo : String
  conteudo : String
  status : String
  usuario_id : Int
  categoria_id : Int
  resumo : Option String := none
  qtde_visualizacoes : Option Int := some 0
  data_cadastro : Option Datetime := none
  data_atualizacao : Option Datetime := none
  data_publicacao : Option Datetime := none
  data_pausa : Option Datetime := none
  usuario_nome : Option String := none
  usuario_email : Option String := none
  categoria_nome : Option String := none
deriving DecidableEq, Repr

/-- Constructing an `Artigo` passing only the six required dataclass fields
(`Artigo(id, titulo, conteudo, status, usuario_id, categoria_id)`); every
other field takes its declared default. -/
def Artigo.ofRequired (id : Int) (titulo conteudo status : String)
    (usuario_id categoria_id : Int) : Artigo :=
  { id, titulo, conteudo, status, usuario_id, categoria_id }

/-- The four nullable lifecycle timestamps of an article, in declaration
order: created, updated, published, paused. -/
def Artigo.lifecycleTimestamps (a : Artigo) : List (Option Datetime) :=
  [a.data_cadastro, a.data_atualizacao, a.data_publicacao, a.data_pausa]

/-! ## Application bootstrap: `src/main.py` -/

/-- The two middlewares `create_app` adds, in the source:
`SessionMiddleware` (session decode) and `MiddlewareProtecaoCSRF`
(CSRF check). -/
inductive MiddlewareKind where
  | sessionMiddleware
  | csrfMiddleware
deriving DecidableEq, Repr

/-- The four exception kinds for which `create_app` installs a handler:
`StarletteHTTPException`, `RequestValidationError`,
`ErroValidacaoFormulario`, and the catch-all `Exception`. -/
inductive HandlerKind where
  | starletteHTTPException
  | requestValidationError
  | erroValidacaoFormulario
  | genericException
deriving DecidableEq, Repr

/-- The twelve feature-area routers included by `create_app`, one
constructor per imported router, in import order. -/
inductive RouterId where
  | auth
  | chamados
  | adminUsuarios
  | adminConfig
  | adminBackups
  | adminChamados
  | usuario
  | chat
  | publicPages
  | examples
  | adminCategorias
  | artigos
deriving DecidableEq, Repr

/-- The eleven calls of the database-preparation `try` block: ten
repository table/index creation calls plus the seed-data initialization
`inicializar_dados()`. -/
inductive DbStep where
  | usuarioTabela
  | configuracaoTabela
  | chamadoTabela
  | chamadoInteracaoTabela
  | chatSalaTabela
  | chatParticipanteTabela
  | chatMensagemTabela
  | indicesIndices
  | categoriaTabela
  | artigoTabela
  | seedDados
deriving DecidableEq, Repr

/-- The database-preparation calls in the order `create_app` performs
them. -/
def dbSteps : List DbStep :=
  [.usuarioTabela, .configuracaoTabela, .chamadoTabela,
   .chamadoInteracaoTabela, .chatSalaTabela, .chatParticipanteTabela,
   .chatMensagemTabela, .indicesIndices, .categoriaTabela, .artigoTabela,
   .seedDados]

/-- One observable configuration action performed by `create_app`. -/
inductive Event where
  | addMiddleware (m : MiddlewareKind)
  | addExceptionHandler (h : HandlerKind)
  | mountStatic (path dir : String)
  | logWarningStaticMissing
  | dbStep (s : DbStep)
  | logDbError
  | includeRouter (r : RouterId)
  | addRoute (method path : String)
deriving DecidableEq, Repr

/-- The configured FastAPI application value.  `userMiddleware` follows
Starlette's `Starlette.add_middleware`, which does
`self.user_middleware.insert(0, ...)`; the head of the list is the
outermost middleware, i.e. the first to run on an incoming request. -/
structure App where
  userMiddleware : List MiddlewareKind
  exceptionHandlers : List HandlerKind
  mounts : List (String × String)
  routers : List RouterId
  routes : List (String × String)
deriving DecidableEq, Repr

/-- A freshly constructed `FastAPI(...)` instance: nothing registered. -/
def App.new : App :=
  { userMiddleware := [], exceptionHandlers := [], mounts := [],
    routers := [], routes := [] }

/-- `app.add_middleware(M)` — Starlette inserts at the front of
`user_middleware`, so the middleware added last runs first on the request
path. -/
def App.addMiddleware (a : App) (m : MiddlewareKind) : App :=
  { a with userMiddleware := m :: a.userMiddleware }

/-- `app.add_exception_handler(exc, handler)` (registration order kept). -/
def App.addExceptionHandler (a : App) (h : HandlerKind) : App :=
  { a with exceptionHandlers := a.exceptionHandlers ++ [h] }

/-- `app.mount(path, StaticFiles(directory=dir))`. -/
def App.mount (a : App) (path dir : String) : App :=
  { a with mounts := a.mounts ++ [(path, dir)] }

/-- `app.include_router(r)`. -/
def App.includeRouter (a : App) (r : RouterId) : App :=
  { a with routers := a.routers ++ [r] }

/-- Registering a route decorator such as `@app.get("/health")`. -/
def App.addRoute (a : App) (method path : String) : App :=
  { a with routes := a.routes ++ [(method, path)] }

/-- The order in which the registered middlewares run on the request path
of an incoming request: Starlette builds the middleware stack so that the
head of `user_middleware` is outermost and runs first. -/
def App.requestPathOrder (a : App) : List MiddlewareKind :=
  a.userMiddleware

/-- The routers `create_app` includes, in the order of its `routers`
list. -/
def routersList : List RouterId :=
  [.auth, .chamados, .adminUsuarios, .adminConfig, .adminBackups,
   .adminChamados, .usuario, .chat, .publicPages, .examples,
   .adminCategorias, .artigos]

/-- The events emitted by the database-preparation `try` block when run on
the given list of steps.  `fails s = true` means the Python call for step
`s` raises; on the first raising call the `except` branch logs the error
(`logDbError`) and re-raises, so the remaining steps do not run. -/
def dbTrace (fails : DbStep → Bool) : List DbStep → List Event
  | [] => []
  | s :: rest =>
    if fails s then [Event.logDbError]
    else Event.dbStep s :: dbTrace fails rest

/-- Whether the database-preparation `try` block runs to completion (no
step raises). -/
def dbOk (fails : DbStep → Bool) : List DbStep → Bool
  | [] => true
  | s :: rest => !fails s && dbOk fails rest

/-- `async def health_check(): return {"status": "healthy"}` — the handler
body, a constant JSON object. -/
def health_check : List (String × String) :=
  [("status", "healthy")]

/-- `def create_app() -> FastAPI` from `src/main.py`, as a pure function.
`staticExists` models `Path("static").exists()`; `fails` models which
database-preparation call (if any) raises.  The result is the event trace
in source order together with the returned application — `none` when the
database block re-raised, in which case `create_app` returns no app. -/
def create_app (staticExists : Bool) (fails : DbStep → Bool) :
    List Event × Option App :=
  let app1 := (App.new.addMiddleware .sessionMiddleware).addMiddleware
    .csrfMiddleware
  let trMw := [Event.addMiddleware .sessionMiddleware,
    Event.addMiddleware .csrfMiddleware]
  let app2 := (((app1.addExceptionHandler .starletteHTTPException)
    |>.addExceptionHandler .requestValidationError)
    |>.addExceptionHandler .erroValidacaoFormulario)
    |>.addExceptionHandler .genericException
  let trEh := [Event.addExceptionHandler .starletteHTTPException,
    Event.addExceptionHandler .requestValidationError,
    Event.addExceptionHandler .erroValidacaoFormulario,
    Event.addExceptionHandler .genericException]
  let app3 := if staticExists then app2.mount "/static" "static" else app2
  let trSt := if staticExists then [Event.mountStatic "/static" "static"]
    else [Event.logWarningStaticMissing]
  let trDb := dbTrace fails dbSteps
  if dbOk fails dbSteps then
    let app4 := routersList.foldl App.includeRouter app3
    let app5 := app4.addRoute "GET" "/health"
    (trMw ++ trEh ++ trSt ++ trDb
      ++ routersList.map Event.includeRouter
      ++ [Event.addRoute "GET" "/health"], some app5)
  else
    (trMw ++ trEh ++ trSt ++ trDb, none)

/-! ## Derived notions used by the statements -/

/-- Whether an event is one of the database-preparation calls (a table or
index creation, or the seed-data initialization). -/
def Event.isDbStep : Event → Bool
  | .dbStep _ => true
  | _ => false

/-- Whether an event registers a router on the application. -/
def Event.isIncludeRouter : Event → Bool
  | .includeRouter _ => true
  | _ => false

/-- Every database-preparation event in the trace occurs strictly before
every router-registration event. -/
def dbBeforeRouters (tr : List Event) : Prop :=
  ∀ i j : Fin tr.length, (tr.get i).isDbStep = true →
    (tr.get j).isIncludeRouter = true → (i : Nat) < (j : Nat)

/-- Index of the first occurrence of a middleware in a list (length of the
list if absent). -/
def firstIndexFrom (m : MiddlewareKind) : List MiddlewareKind → Nat
  | [] => 0
  | x :: rest => if x = m then 0 else firstIndexFrom m rest + 1

/-- The session middleware runs strictly before the CSRF middleware on the
request path of the application. -/
def sessionBeforeCsrf (a : App) : Prop :=
  firstIndexFrom .sessionMiddleware a.requestPathOrder <
    firstIndexFrom .csrfMiddleware a.requestPathOrder

/-- The failure pattern in which no database-preparation call raises. -/
def noFailure : DbStep → Bool := fun _ => false

/-- The failure pattern in which every database-preparation call would
raise (only the first one reached actually runs and raises). -/
def allFailing : DbStep → Bool := fun _ => true

/-- The application built by a bootstrap run where the `static` directory
exists and no database call raises. -/
def bootApp : App :=
  ((create_app true noFailure).2).getD App.new

/-- The application built by a bootstrap run where the `static` directory
does not exist and no database call raises. -/
def bootAppNoStatic : App :=
  ((create_app false noFailure).2).getD App.new

/-- An article whose `status` string is not the value of any `StatusArtigo`
member — constructible because the dataclass types `status` as `str`. -/
def artigoStatusInvalido : Artigo :=
  Artigo.ofRequired 1 "Titulo" "Conteudo" "EmRevisao" 1 1

/-! ## Helper lemmas -/

/-- When the database block completes, its trace is exactly one event per
step, in order. -/
theorem dbTrace_of_ok (fails : DbStep → Bool) :
    ∀ l : List DbStep, dbOk fails l = true →
      dbTrace fails l = l.map Event.dbStep := by
  intro l
  induction l with
  | nil => intro _; rfl
  | cons s rest ih =>
    intro h
    simp only [dbOk, Bool.and_eq_true, Bool.not_eq_true'] at h
    simp [dbTrace, h.1, ih h.2]

/-- When the database block does not complete, its trace records the logged
error. -/
theorem logDbError_mem_of_not_ok (fails : DbStep → Bool) :
    ∀ l : List DbStep, dbOk fails l = false →
      Event.logDbError ∈ dbTrace fails l := by
  intro l
  induction l with
  | nil => intro h; simp [dbOk] at h
  | cons s rest ih =>
    intro h
    by_cases hf : fails s
    · simp [dbTrace, hf]
    · simp only [dbOk, hf, Bool.not_false, Bool.true_and] at h
      simp [dbTrace, hf, ih h]

/-- Every event of the database block is a database step or the logged
error; in particular it is never a router registration or a mount. -/
theorem dbTrace_events (fails : DbStep → Bool) :
    ∀ l : List DbStep, ∀ e ∈ dbTrace fails l,
      e.isDbStep = true ∨ e = Event.logDbError := by
  intro l
  induction l with
  | nil => intro e he; simp [dbTrace] at he
  | cons s rest ih =>
    intro e he
    by_cases hf : fails s
    · simp [dbTrace, hf] at he
      exact Or.inr he
    · simp [dbTrace, hf] at he
      rcases he with he | he
      · subst he; exact Or.inl rfl
      · exact ih e he

/-- If a step of the list raises, the database block does not complete. -/
theorem dbOk_false_of_fail (fails : DbStep → Bool) (s : DbStep)
    (hs : fails s = true) :
    ∀ l : List DbStep, s ∈ l → dbOk fails l = false := by
  intro l
  induction l with
  | nil => intro h; simp at h
  | cons x rest ih =>
    intro hmem
    rcases List.mem_cons.mp hmem with h | h
    · subst h; simp [dbOk, hs]
    · simp [dbOk, ih h]

/-- The step list of `create_app`'s database block covers every
database-preparation step. -/
theorem DbStep.mem_dbSteps (s : DbStep) : s ∈ dbSteps := by
  cases s <;> simp [dbSteps]

/-! ## Claim C2 — article status enumeration -/

/-- C2 (counterexample): the claim that every `Artigo`'s `status` field
holds a value of the four-member `StatusArtigo` enumeration and that no
other status value is representable is false: the dataclass types `status`
as a plain string, so an article whose status is the string
`"EmRevisao"` — no member's value — is representable. -/
theorem C2_counterexample :
    ¬ ∀ a : Artigo, ∃ s : StatusArtigo, a.status = s.value := by
  intro hall
  rcases hall artigoStatusInvalido with ⟨s, hs⟩
  cases s <;> exact absurd hs (by decide)

/-- C2 (amended): `StatusArtigo` is a fixed four-member enumeration whose
members carry exactly the values Rascunho, Finalizado, Publicado and
Pausado; however, the `status` field of `Artigo` is a plain string, so
every string — including ones outside the enumeration — is a representable
status value. -/
theorem C2_status_enum_four_members_but_status_is_string :
    StatusArtigo.members.map StatusArtigo.value =
        ["Rascunho", "Finalizado", "Publicado", "Pausado"] ∧
      (∀ s : StatusArtigo, s ∈ StatusArtigo.members) ∧
      (∀ v : String, ∃ a : Artigo, a.status = v) := by
  refine ⟨rfl, ?_, ?_⟩
  · intro s; cases s <;> simp [StatusArtigo.members]
  · intro v; exact ⟨Artigo.ofRequired 0 "" "" v 0 0, rfl⟩

/-! ## Claim C8 — article record shape -/

/-- C8: every `Artigo` has exactly four nullable lifecycle timestamps
(created, updated, published, paused); an article is constructible from
exactly the six required fields (identity, title, body text, status, owning
user reference, category reference), which it stores unchanged; and the
summary and each of the four timestamps may independently be absent or
present. -/
theorem C8_artigo_fields :
    (∀ a : Artigo, a.lifecycleTimestamps.length = 4) ∧
      (∀ (i : Int) (t c st : String) (u k : Int),
        (Artigo.ofRequired i t c st u k).id = i ∧
        (Artigo.ofRequired i t c st u k).titulo = t ∧
        (Artigo.ofRequired i t c st u k).conteudo = c ∧
        (Artigo.ofRequired i t c st u k).status = st ∧
        (Artigo.ofRequired i t c st u k).usuario_id = u ∧
        (Artigo.ofRequired i t c st u k).categoria_id = k) ∧
      (∀ (r : Option String) (d1 d2 d3 d4 : Option Datetime),
        ∃ a : Artigo, a.resumo = r ∧
          a.lifecycleTimestamps = [d1, d2, d3, d4]) := by
  refine ⟨fun _ => rfl,
    fun i t c st u k => ⟨rfl, rfl, rfl, rfl, rfl, rfl⟩, ?_⟩
  intro r d1 d2 d3 d4
  exact ⟨⟨0, "", "", "", 0, 0, r, some 0, d1, d2, d3, d4, none, none, none⟩,
    rfl, rfl⟩

/-! ## Claim C10 — dataclass defaults -/

/-- C10: constructing an `Artigo` with only the six required fields yields
a record whose view counter is the default 0 and whose summary, four
lifecycle timestamps, and three JOIN display fields are all `None`. -/
theorem C10_required_only_defaults (i : Int) (t c st : String)
    (u k : Int) :
    (Artigo.ofRequired i t c st u k).qtde_visualizacoes = some 0 ∧
      (Artigo.ofRequired i t c st u k).resumo = none ∧
      (Artigo.ofRequired i t c st u k).data_cadastro = none ∧
      (Artigo.ofRequired i t c st u k).data_atualizacao = none ∧
      (Artigo.ofRequired i t c st u k).data_publicacao = none ∧
      (Artigo.ofRequired i t c st u k).data_pausa = none ∧
      (Artigo.ofRequired i t c st u k).usuario_nome = none ∧
      (Artigo.ofRequired i t c st u k).usuario_email = none ∧
      (Artigo.ofRequired i t c st u k).categoria_nome = none :=
  ⟨rfl, rfl, rfl, rfl, rfl, rfl, rfl, rfl, rfl⟩

/-! ## Claim C1 — tables and seed data before routers -/

/-- C1: in every bootstrap run that returns an application, the
table/index-creation call of each repository and the seed-data
initialization appear in the trace, and every one of them occurs strictly
before every router registration. -/
theorem C1_db_and_seed_before_routers (se : Bool) (fails : DbStep → Bool)
    (tr : List Event) (app : App)
    (h : create_app se fails = (tr, some app)) :
    (∀ s : DbStep, Event.dbStep s ∈ tr) ∧ dbBeforeRouters tr := by
  by_cases hok : dbOk fails dbSteps = true
  · have htr := dbTrace_of_ok fails dbSteps hok
    cases se <;> simp only [create_app, hok, htr, if_true, Prod.mk.injEq,
      Option.some.injEq, Bool.false_eq_true, if_false] at h <;>
      obtain ⟨h1, h2⟩ := h <;> subst h1 <;>
      exact ⟨by intro s; cases s <;> decide,
        by unfold dbBeforeRouters; decide⟩
  · simp only [Bool.not_eq_true] at hok
    cases se <;> simp [create_app, hok] at h

/-- Witness for C1: the bootstrap run with the static directory present and
no database failure. -/
theorem C1_witness :
    (∀ s : DbStep, Event.dbStep s ∈ (create_app true noFailure).1) ∧
      dbBeforeRouters (create_app true noFailure).1 :=
  C1_db_and_seed_before_routers true noFailure (create_app true noFailure).1
    bootApp rfl

/-! ## Claim C3 — the four exception handlers -/

/-- C3: every bootstrap run registers an exception handler for each of the
four error kinds — Starlette HTTP errors, request validation errors, form
validation errors, and generic exceptions. -/
theorem C3_exception_handlers (se : Bool) (fails : DbStep → Bool)
    (h : HandlerKind) :
    Event.addExceptionHandler h ∈ (create_app se fails).1 := by
  by_cases hok : dbOk fails dbSteps = true <;>
    [skip; simp only [Bool.not_eq_true] at hok] <;>
    cases se <;> cases h <;> simp [create_app, hok]

/-! ## Claim C4 — middleware order on the request path -/

/-- C4 (counterexample): the claim that the session middleware runs before
the CSRF middleware on the request path is false: `add_middleware` inserts
at the front of the middleware list, so the CSRF middleware — added
second — is outermost and runs first. -/
theorem C4_counterexample : ¬ sessionBeforeCsrf bootApp := by
  unfold sessionBeforeCsrf
  decide

/-- C4 (amended): on the request path the middlewares run in the order
CSRF check first, then session decode, because `add_middleware` prepends
and `create_app` adds the session middleware first and the CSRF middleware
second. -/
theorem C4_csrf_runs_before_session (se : Bool) (fails : DbStep → Bool)
    (app : App) (h : (create_app se fails).2 = some app) :
    app.requestPathOrder =
      [MiddlewareKind.csrfMiddleware, MiddlewareKind.sessionMiddleware] := by
  by_cases hok : dbOk fails dbSteps = true
  · cases se <;> simp only [create_app, hok, if_true, Option.some.injEq,
      Bool.false_eq_true, if_false] at h <;> subst h <;> decide
  · simp only [Bool.not_eq_true] at hok
    cases se <;> simp [create_app, hok] at h

/-- Witness for the amended C4 at a concrete bootstrap run. -/
theorem C4_amended_witness :
    bootApp.requestPathOrder =
      [MiddlewareKind.csrfMiddleware, MiddlewareKind.sessionMiddleware] :=
  C4_csrf_runs_before_session true noFailure bootApp rfl

/-! ## Claim C5 — the twelve routers -/

/-- C5: every returned application has exactly the twelve feature-area
routers registered, in source order, each exactly once. -/
theorem C5_twelve_routers (se : Bool) (fails : DbStep → Bool) (app : App)
    (h : (create_app se fails).2 = some app) :
    app.routers = routersList ∧ routersList.length = 12 ∧
      ∀ r : RouterId, app.routers.count r = 1 := by
  by_cases hok : dbOk fails dbSteps = true
  · cases se <;> simp only [create_app, hok, if_true, Option.some.injEq,
      Bool.false_eq_true, if_false] at h <;> subst h <;>
      exact ⟨by decide, by decide, by intro r; cases r <;> decide⟩
  · simp only [Bool.not_eq_true] at hok
    cases se <;> simp [create_app, hok] at h

/-- Witness for C5 at a concrete bootstrap run. -/
theorem C5_witness :
    bootApp.routers = routersList ∧ routersList.length = 12 ∧
      ∀ r : RouterId, bootApp.routers.count r = 1 :=
  C5_twelve_routers true noFailure bootApp rfl

/-! ## Claim C6 — the static mount -/

/-- C6 (counterexample): the claim that bootstrap registers the static
mount is false for the run in which the `static` directory does not exist:
that run returns an application with no mounts and its trace contains no
mount event. -/
theorem C6_counterexample :
    bootAppNoStatic.mounts = [] ∧
      Event.mountStatic "/static" "static" ∉
        (create_app false noFailure).1 := by
  exact ⟨by decide, by decide⟩

/-- C6 (amended): bootstrap mounts the `static` directory at `/static`
exactly when the `static` directory exists; otherwise it only logs a
warning and registers no mount. -/
theorem C6_mount_iff_static_dir (se : Bool) (fails : DbStep → Bool) :
    (Event.mountStatic "/static" "static" ∈ (create_app se fails).1) ↔
      se = true := by
  have hdb : Event.mountStatic "/static" "static" ∉ dbTrace fails dbSteps := by
    intro hmem
    rcases dbTrace_events fails dbSteps _ hmem with h1 | h1
    · simp [Event.isDbStep] at h1
    · simp at h1
  by_cases hok : dbOk fails dbSteps = true <;>
    [skip; simp only [Bool.not_eq_true] at hok] <;>
    cases se <;> simp [create_app, hok, hdb]

/-! ## Claim C7 — database failure aborts bootstrap -/

/-- C7: when some database-preparation call raises, `create_app` logs the
error and returns no application, and no router is ever registered. -/
theorem C7_db_failure_aborts (se : Bool) (fails : DbStep → Bool)
    (s : DbStep) (hs : fails s = true) :
    (create_app se fails).2 = none ∧
      Event.logDbError ∈ (create_app se fails).1 ∧
      ∀ r : RouterId, Event.includeRouter r ∉ (create_app se fails).1 := by
  have hok : dbOk fails dbSteps = false :=
    dbOk_false_of_fail fails s hs dbSteps (DbStep.mem_dbSteps s)
  have hmem := logDbError_mem_of_not_ok fails dbSteps hok
  refine ⟨?_, ?_, ?_⟩
  · cases se <;> simp [create_app, hok]
  · cases se <;> simp [create_app, hok, hmem]
  · intro r
    have hdb : Event.includeRouter r ∉ dbTrace fails dbSteps := by
      intro hmem2
      rcases dbTrace_events fails dbSteps _ hmem2 with h1 | h1
      · simp [Event.isDbStep] at h1
      · simp at h1
    cases se <;> simp [create_app, hok, hdb]

/-- Witness for C7: a run in which the very first database call raises. -/
theorem C7_witness :
    (create_app true allFailing).2 = none ∧
      Event.logDbError ∈ (create_app true allFailing).1 ∧
      ∀ r : RouterId, Event.includeRouter r ∉ (create_app true allFailing).1 :=
  C7_db_failure_aborts true allFailing .usuarioTabela rfl

/-! ## Claim C9 — the health endpoint -/

/-- C9: every returned application registers the `GET /health` route, and
its handler is the constant object with `status` mapped to `healthy`,
independent of any database or repository state. -/
theorem C9_health_route (se : Bool) (fails : DbStep → Bool) (app : App)
    (h : (create_app se fails).2 = some app) :
    ("GET", "/health") ∈ app.routes ∧
      health_check = [("status", "healthy")] := by
  by_cases hok : dbOk fails dbSteps = true
  · cases se <;> simp only [create_app, hok, if_true, Option.some.injEq,
      Bool.false_eq_true, if_false] at h <;> subst h <;>
      exact ⟨by decide, rfl⟩
  · simp only [Bool.not_eq_true] at hok
    cases se <;> simp [create_app, hok] at h

/-- Witness for C9 at a concrete bootstrap run. -/
theorem C9_witness :
    ("GET", "/health") ∈ bootApp.routes ∧
      health_check = [("status", "healthy")] :=
  C9_health_route true noFailure bootApp rfl

end SimpleBlog
